import Mathlib

/-!
Verification of the quickleaflet grid server (`server.js`, most complete
revision) against its natural-language specification.

The JavaScript source is shallowly embedded below.  JS numbers are modelled
as `ℚ` where the program only performs exact arithmetic (query parameters,
zoom levels, delays) and as `ℝ` where the program uses transcendental
functions (`Math.log`, `Math.tan`, `Math.cos`, `Math.exp` in the Web-Mercator
tile projection).  JS 32-bit integer operations (`<<`, `&`) are modelled with
explicit `% 2^32` arithmetic on `ℤ`.  The memcached client and the Postgres
pool perform I/O; their observable behaviour is modelled by passing the cache
contents and the datastore's reply as explicit arguments, and by returning the
cache writes and query count as an explicit effect log.
-/

namespace QuickLeaflet

/-! ## A model of JSON values

Parsed JSON values, as produced by `JSON.parse` on the strings the program
stores in memcached.  The program never stores `undefined`, so the type has no
`undefined` constructor; a JS object field whose value is `undefined`
(`dashArray` for the coarse grid) is modelled by omitting the field, which is
exactly how `JSON.stringify` and `res.json` treat it. -/
inductive Json where
  | null
  | bool (b : Bool)
  | num (q : ℚ)
  | str (s : String)
  | arr (elems : List Json)
  | obj (fields : List (String × Json))

/-- JS truthiness of a (parsed JSON) value: `null`, `false`, `0` and `""` are
falsy, everything else (including `[]` and `{}`) is truthy. -/
def jsTruthy : Json → Bool
  | .null => false
  | .bool b => b
  | .num q => !(q == 0)
  | .str s => !(s == "")
  | _ => true

/-- Truthiness of a `getCache` result, where `none` models the `null` the
source resolves on a cache miss (`data ? JSON.parse(data) : null`). -/
def truthyOpt : Option Json → Bool
  | none => false
  | some j => jsTruthy j

/-- JS `SameValueZero` equality, as used by `new Set(...)`: primitives compare
by value; objects and arrays compare by reference, and since every value here
was freshly produced by `JSON.parse`, two objects/arrays are never the same
reference. -/
def jsSameValueZero : Json → Json → Bool
  | .null, .null => true
  | .bool a, .bool b => a == b
  | .num a, .num b => a == b
  | .str a, .str b => a == b
  | _, _ => false

/-- Iteration of a JS `Set` build-up: an element is added (and emitted) only
if no already-seen element is `eqv`-equal to it. -/
def jsSetDedupGo (eqv : α → α → Bool) (seen : List α) : List α → List α
  | [] => []
  | x :: xs =>
    if seen.any (fun y => eqv y x) then jsSetDedupGo eqv seen xs
    else x :: jsSetDedupGo eqv (x :: seen) xs

/-- Deduplication with a JS `Set`'s first-insertion-order semantics:
`[...new Set(l)]` keeps the first occurrence of each element. -/
def jsSetDedup (eqv : α → α → Bool) (l : List α) : List α := jsSetDedupGo eqv [] l

theorem jsSetDedup_eq_nil_iff (eqv : α → α → Bool) (l : List α) :
    jsSetDedup eqv l = [] ↔ l = [] := by
  cases l with
  | nil => simp [jsSetDedup, jsSetDedupGo]
  | cons x xs => simp [jsSetDedup, jsSetDedupGo]

/-! ## Decimal rendering of numbers

JS renders integer-valued numbers in decimal (`String(18653) = "18653"`,
`Object.keys` of an array yields `"0"`, `"1"`, ...).  We model this decimal
rendering explicitly so that we can reason about which characters occur in
it. -/

/-- The decimal digit character for `d < 10` (`'0'`–`'9'`). -/
def digitChar10 (d : ℕ) : Char := Char.ofNat (48 + d)

/-- Decimal digit list of a natural number, most significant digit first. -/
def decDigits (n : ℕ) : List Char :=
  if _h : n < 10 then [digitChar10 n]
  else decDigits (n / 10) ++ [digitChar10 (n % 10)]
termination_by n
decreasing_by
  exact Nat.div_lt_self (Nat.pos_of_ne_zero (by omega)) (by norm_num)

/-- Decimal rendering of a natural number, as JS `String(n)` produces it. -/
def decRepr (n : ℕ) : String := String.mk (decDigits n)

/-- Decimal rendering of an integer, as JS `String(i)` produces it. -/
def decReprInt (i : ℤ) : String :=
  if i < 0 then "-" ++ decRepr i.natAbs else decRepr i.natAbs

/-- Rendering of a JS number as `JSON.stringify` / template literals produce
it.  The program only ever renders integer-valued numbers (zoom levels and
tile coordinates), which this covers exactly; non-integers fall back to a
fraction rendering that never occurs in any modelled execution. -/
def jsNumToString (q : ℚ) : String :=
  if q.den = 1 then decReprInt q.num
  else decReprInt q.num ++ "/" ++ decRepr q.den

theorem decDigits_ne_nil (n : ℕ) : decDigits n ≠ [] := by
  rw [decDigits]
  split
  · simp
  · simp

/-- Every character of a decimal rendering is a decimal digit character. -/
theorem decDigits_all_digit (n : ℕ) :
    ∀ c ∈ decDigits n, ∃ d, d < 10 ∧ c = digitChar10 d := by
  induction n using Nat.strong_induction_on with
  | _ n ih =>
    rw [decDigits]
    split
    · intro c hc
      simp only [List.mem_singleton] at hc
      exact ⟨n, ‹n < 10›, hc⟩
    · intro c hc
      rcases List.mem_append.mp hc with h | h
      · exact ih (n / 10)
          (Nat.div_lt_self (Nat.pos_of_ne_zero (by omega)) (by norm_num)) c h
      · simp only [List.mem_singleton] at h
        exact ⟨n % 10, Nat.mod_lt _ (by norm_num), h⟩

theorem decRepr_ne_type (n : ℕ) : decRepr n ≠ "type" := by
  intro h
  have hchars : decDigits n = ['t', 'y', 'p', 'e'] := by
    have : String.mk (decDigits n) = String.mk ['t', 'y', 'p', 'e'] := h
    exact congrArg String.data this
  have ht : 't' ∈ decDigits n := by rw [hchars]; simp
  obtain ⟨d, hd, he⟩ := decDigits_all_digit n 't' ht
  interval_cases d <;> simp_all [digitChar10]

theorem decRepr_ne_properties (n : ℕ) : decRepr n ≠ "properties" := by
  intro h
  have hchars : decDigits n = "properties".data := congrArg String.data h
  have ht : 'p' ∈ decDigits n := by rw [hchars]; decide
  obtain ⟨d, hd, he⟩ := decDigits_all_digit n 'p' ht
  interval_cases d <;> simp_all [digitChar10]

theorem decRepr_ne_geometry (n : ℕ) : decRepr n ≠ "geometry" := by
  intro h
  have hchars : decDigits n = "geometry".data := congrArg String.data h
  have ht : 'g' ∈ decDigits n := by rw [hchars]; decide
  obtain ⟨d, hd, he⟩ := decDigits_all_digit n 'g' ht
  interval_cases d <;> simp_all [digitChar10]

/-! ## `createContentKey` (source lines 95–112)

`JSON.stringify(data, Object.keys(data).sort())`: the second argument is an
*array replacer*, i.e. a whitelist of property names.  `JSON.stringify` keeps,
in every non-array object at every depth, only the properties whose key occurs
in the whitelist; array elements are always kept.  `Object.keys` of the
feature array yields its index strings `"0"`, `"1"`, ..., and `.sort()`
reorders them lexicographically (the whitelist is used only as a membership
set, but we model the sort faithfully). -/

/-- Insertion of a string into a lexicographically sorted list, used to model
JS `Array.prototype.sort()` (default comparator: lexicographic by code
units). -/
def insertSorted (x : String) : List String → List String
  | [] => [x]
  | y :: ys => if x ≤ y then x :: y :: ys else y :: insertSorted x ys

/-- JS `Array.prototype.sort()` on an array of strings (insertion sort;
JS's sort is not stable across engines historically, but the result is some
lexicographically sorted permutation, which insertion sort produces). -/
def jsSortStrings (l : List String) : List String := l.foldr insertSorted []

theorem mem_insertSorted (x a : String) (l : List String) :
    a ∈ insertSorted x l ↔ a = x ∨ a ∈ l := by
  induction l with
  | nil => simp [insertSorted]
  | cons y ys ih =>
    simp only [insertSorted]
    split
    · simp
    · simp only [List.mem_cons, ih]
      tauto

theorem mem_jsSortStrings (a : String) (l : List String) :
    a ∈ jsSortStrings l ↔ a ∈ l := by
  induction l with
  | nil => simp [jsSortStrings]
  | cons x xs ih =>
    simp only [jsSortStrings, List.foldr_cons] at *
    rw [mem_insertSorted, ih, List.mem_cons]

/-- JSON string literal quoting.  The strings occurring in this program
(`"Feature"`, grid-line names, colors, content keys) contain no characters
that require escaping; backslash and quote are escaped for totality. -/
def jsStringQuote (s : String) : String :=
  "\"" ++ String.mk (s.data.flatMap (fun c =>
    if c = '"' ∨ c = '\\' then ['\\', c] else [c])) ++ "\""

mutual

/-- Semantics of `JSON.stringify(v, allowed)` with an array replacer `allowed`: property
whitelist applied to every non-array object, all array elements kept. -/
def jsonStringifyR (allowed : List String) : Json → String
  | .null => "null"
  | .bool true => "true"
  | .bool false => "false"
  | .num q => jsNumToString q
  | .str s => jsStringQuote s
  | .arr xs => "[" ++ String.intercalate "," (stringifyElems allowed xs) ++ "]"
  | .obj fs => "\x7b" ++ String.intercalate "," (stringifyProps allowed fs) ++ "\x7d"

/-- Serialized forms of the elements of a JSON array (all kept). -/
def stringifyElems (allowed : List String) : List Json → List String
  | [] => []
  | x :: xs => jsonStringifyR allowed x :: stringifyElems allowed xs

/-- Serialized forms of the whitelisted properties of a JSON object. -/
def stringifyProps (allowed : List String) : List (String × Json) → List String
  | [] => []
  | (k, v) :: fs =>
    if decide (k ∈ allowed) then
      (jsStringQuote k ++ ":" ++ jsonStringifyR allowed v) :: stringifyProps allowed fs
    else
      stringifyProps allowed fs

end

/-- Reduction of a JS double to a signed 32-bit integer (`ToInt32`), as
performed by `<<` and `&`. -/
def toInt32 (n : ℤ) : ℤ := (n + 2 ^ 31) % 2 ^ 32 - 2 ^ 31

/-- The rolling hash of source lines 100–105:
`hash = (hash << 5) - hash + charCodeAt(i); hash = hash & hash`.
`hash << 5` coerces to int32 and shifts (i.e. `toInt32 (h * 32)`), the
addition is exact double arithmetic, and `hash & hash` coerces the result back
to int32. -/
def hash32 (s : String) : ℤ :=
  s.data.foldl (fun h c => toInt32 (toInt32 (h * 32) - h + c.toNat)) 0

/-- The base-36 digit characters `0`–`9`, `a`–`z` used by
`Number.prototype.toString(36)`. -/
def base36Digit (d : ℕ) : Char :=
  if d < 10 then Char.ofNat (48 + d) else Char.ofNat (87 + d)

/-- Base-36 digit list of a natural number, as `n.toString(36)` renders it. -/
def base36Digits (n : ℕ) : List Char :=
  if _h : n < 36 then [base36Digit n]
  else base36Digits (n / 36) ++ [base36Digit (n % 36)]
termination_by n
decreasing_by
  exact Nat.div_lt_self (Nat.pos_of_ne_zero (by omega)) (by norm_num)

/-- Rendering `Math.abs(hash).toString(36)` of a 32-bit hash value. -/
def toBase36 (n : ℕ) : String := String.mk (base36Digits n)

/-- Embedding of `createContentKey` (source lines 95–112): canonicalize with
`JSON.stringify(data, Object.keys(data).sort())`, hash, base-36 encode,
prefix with `content:`. -/
def createContentKey (data : List Json) : String :=
  let str := jsonStringifyR (jsSortStrings ((List.range data.length).map decRepr))
    (Json.arr data)
  "content:" ++ toBase36 (Int.natAbs (hash32 str))

/-- Embedding of `createTileKey` (source lines 81–90).  The source validates that the tile
name has the `z/x/y` shape and throws otherwise; every tile name in the
program is produced by `getTileNames` and has that shape, so the validation
never fires and is modelled away. -/
def createTileKey (tileName : String) : String := "tile:" ++ tileName

/-! ## The two-level cache and `getGridLines` (source lines 114–297)

The memcached client stores JSON-serialized values with a TTL.  We model the
cache contents as a partial map from key to the parsed value (serialization
and parsing are mutually inverse on the values this program stores), cache
reads as lookups in that map, and cache writes as an explicit effect log of
`(key, value, ttl)` triples.  The datastore (`pool.query`) is modelled by its
reply: either the row list or a failure. -/

/-- A row of the `geolines` query: `name`, `color`, and the GeoJSON geometry
(source lines 238–258). -/
structure Row where
  name : String
  color : String
  geometry : Json

/-- The grid-type selection of source lines 199–207 (evaluated on the miss
path only). -/
def gridTypeOf (zoomLevel : ℚ) : String :=
  if zoomLevel > 17 then "50m"
  else if zoomLevel > 13 then "100m"
  else "500m"

/-- Conversion of a query row to a GeoJSON feature (source lines 261–276).
A JS object field holding `undefined` (`dashArray` for the 500m grid) is
omitted, as `JSON.stringify` and `res.json` drop it. -/
def rowToFeature (gridType : String) (row : Row) : Json :=
  Json.obj [("type", .str "Feature"),
    ("properties", .obj ([("name", .str row.name), ("color", .str row.color),
      ("weight", .num 2), ("opacity", .num (7/10))] ++
      (if gridType = "50m" then [("dashArray", .str "10, 10")]
       else if gridType = "100m" then [("dashArray", .str "15, 10")]
       else []))),
    ("geometry", row.geometry)]

/-- Cache contents: key to parsed stored value (`none` = absent or expired). -/
def Cache := String → Option Json

/-- Embedding of `getCache` (source lines 130–141): memcached get, `JSON.parse` the stored
string, `null` (here `none`) on a miss. -/
def getCache (cache : Cache) (key : String) : Option Json := cache key

/-- The empty cache. -/
def emptyCache : Cache := fun _ => none

/-- A memcached key coerced from a parsed JS value, as `getCache(key)` does
when the tile index held that value.  The program only ever stores strings
under tile keys, so only the `str` case is reachable. -/
def jsKeyToString : Json → String
  | .str s => s
  | .null => "null"
  | .bool true => "true"
  | .bool false => "false"
  | .num q => jsNumToString q
  | .arr _ => ""
  | .obj _ => "[object Object]"

/-- A single cache write: key, value, expiration in seconds
(`setCache(key, value, expires)`, source lines 115–127; the default
`expires` is 300). -/
structure CacheWrite where
  key : String
  value : Json
  ttl : ℕ

/-- The tile-index lookups of source lines 161–163: one `getCache` per tile
name. -/
def tileIndexReads (cache : Cache) (tileNames : List String) : List (Option Json) :=
  tileNames.map (fun t => getCache cache (createTileKey t))

/-- The set `uncachedTiles` (source lines 166–175): the JS `Set` of tile names whose
index lookup was falsy, in first-insertion order. -/
def uncachedTileNames (cache : Cache) (tileNames : List String) : List String :=
  jsSetDedup (fun a b => a == b)
    (tileNames.filter (fun t => !truthyOpt (getCache cache (createTileKey t))))

/-- The count `cachedTiles.size` (source lines 166–175, 193): the number of distinct
tile names whose index lookup was truthy (the JS `Map` keys). -/
def cachedTileCount (cache : Cache) (tileNames : List String) : ℕ :=
  (jsSetDedup (fun a b => a == b)
    (tileNames.filter (fun t => truthyOpt (getCache cache (createTileKey t))))).length

/-- The list `[...new Set(cachedContentKeys.filter(Boolean))]` (source line 178):
the distinct truthy tile-index values, in first-insertion order,
deduplicated with JS `Set` (SameValueZero) semantics. -/
def uniqueContentKeys (cache : Cache) (tileNames : List String) : List Json :=
  jsSetDedup jsSameValueZero
    ((tileIndexReads cache tileNames).filterMap id |>.filter jsTruthy)

/-- Behaviour of `.flat()` on one element: arrays are spliced one level, other values kept. -/
def jsFlat1 : Json → List Json
  | .arr xs => xs
  | j => [j]

/-- The list `cachedFeatures` (source lines 179–185): load every distinct referenced
content key, drop falsy results (`filter(Boolean)` — in particular the `null`
of an absent content entry), and flatten the remaining feature arrays. -/
def collectCachedFeatures (cache : Cache) (tileNames : List String) : List Json :=
  ((((uniqueContentKeys cache tileNames).map
      (fun key => getCache cache (jsKeyToString key))).filterMap id).filter
    jsTruthy).flatMap jsFlat1

/-- The value `getGridLines` resolves with, extended with the effect log
(number of datastore queries issued, cache writes performed). -/
structure GridResult where
  cached : List Json
  queried : List Json
  statsCached : ℕ
  statsTotal : ℕ
  dbQueries : ℕ
  writes : List CacheWrite

/-- The body of `getGridLines` from the tile-index lookup on (source lines
158–297), parametrized by the tile names computed at line 158 and by the
datastore's reply.  A datastore failure rejects the whole promise
(`Except.error`); no cache write precedes the query, so a failed call writes
nothing. -/
def getGridLinesCore (tileNames : List String) (zoomLevel : ℚ) (cache : Cache)
    (db : Except Unit (List Row)) : Except Unit GridResult :=
  let uncached := uncachedTileNames cache tileNames
  let cachedFeatures := collectCachedFeatures cache tileNames
  if uncached.length = 0 then
    .ok ⟨cachedFeatures, [], cachedTileCount cache tileNames, tileNames.length, 0, []⟩
  else
    let gridType := gridTypeOf zoomLevel
    match db with
    | .error e => .error e
    | .ok rows =>
      let features := rows.map (rowToFeature gridType)
      let contentKey := createContentKey features
      .ok ⟨cachedFeatures, features, cachedTileCount cache tileNames, tileNames.length, 1,
        ⟨contentKey, Json.arr features, 300⟩ ::
          uncached.map (fun t => ⟨createTileKey t, Json.str contentKey, 3600⟩)⟩

/-! ## Tile addressing (source lines 217–235, 379–429)

The Web-Mercator projection uses `Math.log`, `Math.tan`, `Math.cos`,
`Math.exp`; JS doubles are modelled as real numbers here. -/

open Real in
/-- Viewport bounds in signed degrees. -/
structure Bounds where
  north : ℝ
  south : ℝ
  east : ℝ
  west : ℝ

open Real in
/-- Embedding of `calculateOSMTile` (source lines 380–392): `(tileX, tileY)` of the tile
containing `(lat, lng)` at `zoom`. -/
noncomputable def calculateOSMTile (lat lng : ℝ) (zoom : ℚ) : ℤ × ℤ :=
  (⌊((lng + 180) / 360) * Real.rpow 2 (zoom : ℝ)⌋,
   ⌊((1 - Real.log (Real.tan (lat * π / 180) + 1 / Real.cos (lat * π / 180)) / π) / 2)
      * Real.rpow 2 (zoom : ℝ)⌋)

open Real in
/-- Embedding of `tile2LatLng` (source lines 218–224): northwest corner of a tile, used
only to build the datastore query envelope. -/
noncomputable def tile2LatLng (z x y : ℝ) : ℝ × ℝ :=
  let n := π - (2 * π * y) / Real.rpow 2 z
  ((180 / π) * Real.arctan (0.5 * (Real.exp n - Real.exp (-n))),
   (x / Real.rpow 2 z) * 360 - 180)

/-- The inclusive integer range `a..b` (`for (let i = a; i <= b; i++)`). -/
def intRange (a b : ℤ) : List ℤ :=
  (List.range (b - a + 1).toNat).map (fun (i : ℕ) => a + (i : ℤ))

/-- One tile name `` `${zoomLevel}/${x}/${y}` `` (source line 406). -/
def tileName (zoomLevel : ℚ) (x y : ℤ) : String :=
  jsNumToString zoomLevel ++ "/" ++ decReprInt x ++ "/" ++ decReprInt y

/-- The value of `getTileNames` (source lines 395–429): the row-major tile
enumeration plus the tile ranges (the `stats` field repeats the same data). -/
structure TileNamesResult where
  tiles : List String
  xmin : ℤ
  xmax : ℤ
  ymin : ℤ
  ymax : ℤ
  count : ℕ

/-- Embedding of `getTileNames` (source lines 395–429): project the NW and SE corners and
enumerate every tile in the inclusive rectangle, y (outer) then x (inner). -/
noncomputable def getTileNames (bounds : Bounds) (zoomLevel : ℚ) : TileNamesResult :=
  let nw := calculateOSMTile bounds.north bounds.west zoomLevel
  let se := calculateOSMTile bounds.south bounds.east zoomLevel
  let tiles := (intRange nw.2 se.2).flatMap
    (fun y => (intRange nw.1 se.1).map (fun x => tileName zoomLevel x y))
  ⟨tiles, nw.1, se.1, nw.2, se.2, tiles.length⟩

/-- Embedding of `getGridLines` (source lines 144–297): zoom levels of 10 or less
short-circuit with an empty result before any cache, throttle, or datastore
interaction; otherwise the tile names are computed and the cache/fetch path
of `getGridLinesCore` runs. -/
noncomputable def getGridLines (bounds : Bounds) (zoomLevel : ℚ) (cache : Cache)
    (db : Except Unit (List Row)) : Except Unit GridResult :=
  if zoomLevel ≤ 10 then
    .ok ⟨[], [], 0, 0, 0, []⟩
  else
    getGridLinesCore (getTileNames bounds zoomLevel).tiles zoomLevel cache db

/-! ## The request tracker (source lines 36–78)

The object literal declares `activeRequests` twice (`0`, then
`new Set()`); the later property wins, so the live state is the `Set` of
in-flight request ids plus the `lastRequestId` counter. -/

/-- The mutable state of `requestTracker`. -/
structure TrackerState where
  active : Finset ℕ
  lastId : ℕ

/-- The fresh tracker constructed at module load. -/
def initTracker : TrackerState := ⟨∅, 0⟩

/-- What `trackRequest` resolves with (source line 72). -/
structure AdmitResult where
  delay : ℕ
  activeCount : ℕ
  requestId : ℕ

/-- Embedding of `requestTracker.trackRequest` (source lines 54–73): allocate the next
request id, insert it into the in-flight set, and compute
`min(baseDelay * 2^(activeCount - 1), maxDelay)` from the set's size
*after* the insertion (`baseDelay = 100`, `maxDelay = 10000`).  The
suspension (`await setTimeout(delay)`) has no further observable effect. -/
def trackRequest (s : TrackerState) : AdmitResult × TrackerState :=
  let requestId := s.lastId + 1
  let active := insert requestId s.active
  let activeCount := active.card
  let delay := min (100 * 2 ^ (activeCount - 1)) 10000
  (⟨delay, activeCount, requestId⟩, ⟨active, requestId⟩)

/-- Embedding of `requestTracker.completeRequest` (source lines 75–77). -/
def completeRequest (s : TrackerState) (requestId : ℕ) : TrackerState :=
  ⟨s.active.erase requestId, s.lastId⟩

/-- Embedding of `requestTracker.getCurrentDelay` (source lines 45–52).  Dead code: no
route calls it; note it uses `2^activeCount` where `trackRequest` uses
`2^(activeCount - 1)`. -/
def getCurrentDelay (s : TrackerState) : ℕ :=
  if s.active.card = 0 then 0 else min (100 * 2 ^ s.active.card) 10000

/-! ## The `/api/grid` handler (source lines 299–361) -/

/-- Embedding of `parseFloat(q) || d` (source lines 300–307): `parseFloat` of an absent or
non-numeric parameter is `NaN` (modelled `none`), and `||` replaces every
falsy parsed value — `NaN`, `0` and `-0` — with the default. -/
def jsOrDefault (q : Option ℚ) (d : ℚ) : ℚ :=
  match q with
  | none => d
  | some x => if x = 0 then d else x

/-- The bounds the handler passes to `getGridLines` (source lines 300–305). -/
noncomputable def handlerBounds (qn qs qe qw : Option ℚ) : Bounds :=
  ⟨(jsOrDefault qn 60.1819 : ℚ), (jsOrDefault qs 60.1619 : ℚ),
   (jsOrDefault qe 24.9514 : ℚ), (jsOrDefault qw 24.9314 : ℚ)⟩

/-- The JSON body of a 200 response (source lines 332–348). -/
structure GridResponse where
  features : List Json
  currentDelay : ℕ
  activeRequests : ℕ
  infoCached : ℕ
  infoQueried : ℕ
  infoZoom : ℚ
  tilesCached : ℕ
  tilesTotal : ℕ

/-- How a request to `/api/grid` terminates.  `crashed` models the
`ReferenceError` raised inside the `catch` block: `requestId` is declared
with `let` *inside* the `try` block (line 313), so the `catch` block's
`if (requestId)` (line 351) references an undeclared name, the error
propagates out of the handler, and the intended
`res.status(500).json({features: []})` is never executed. -/
inductive HandlerOutcome where
  | ok (resp : GridResponse)
  | crashed

/-- The observable result of one `/api/grid` request: the outcome, the
tracker state afterwards, and the effect log. -/
structure HandlerResult where
  outcome : HandlerOutcome
  tracker : TrackerState
  writes : List CacheWrite
  dbQueries : ℕ
  throttleAdmits : ℕ

/-- The `/api/grid` route (source lines 299–361).  `getGridLines` runs first;
only when the datastore was queried *and returned at least one feature*
(`queried.length > 0`) is `trackRequest` awaited, and the returned
`requestId` (always ≥ 1, hence truthy) is then immediately released.  On a
rejection of `getGridLines` the `catch` block crashes (see
`HandlerOutcome.crashed`); the only rejecting operation modelled is the one
datastore query, which had been issued exactly once and had written nothing
to the cache. -/
noncomputable def apiGridHandler (qn qs qe qw qz : Option ℚ) (cache : Cache)
    (db : Except Unit (List Row)) (tr : TrackerState) : HandlerResult :=
  let zoomLevel := jsOrDefault qz 15
  match getGridLines (handlerBounds qn qs qe qw) zoomLevel cache db with
  | .error _ => ⟨.crashed, tr, [], 1, 0⟩
  | .ok r =>
    if 0 < r.queried.length then
      let a := (trackRequest tr).1
      let tr2 := completeRequest (trackRequest tr).2 a.requestId
      ⟨.ok ⟨r.cached ++ r.queried, a.delay, a.activeCount, r.cached.length,
         r.queried.length, zoomLevel, r.statsCached, r.statsTotal⟩,
       tr2, r.writes, r.dbQueries, 1⟩
    else
      ⟨.ok ⟨r.cached ++ r.queried, 0, 0, r.cached.length,
         r.queried.length, zoomLevel, r.statsCached, r.statsTotal⟩,
       tr, r.writes, r.dbQueries, 0⟩

/-! ## Path lemmas -/

theorem uncachedTileNames_emptyCache (tileNames : List String) :
    uncachedTileNames emptyCache tileNames =
      jsSetDedup (fun a b => a == b) tileNames := by
  simp [uncachedTileNames, emptyCache, getCache, truthyOpt]

theorem cachedTileCount_emptyCache (tileNames : List String) :
    cachedTileCount emptyCache tileNames = 0 := by
  simp [cachedTileCount, emptyCache, getCache, truthyOpt, jsSetDedup, jsSetDedupGo]

theorem collectCachedFeatures_emptyCache (tileNames : List String) :
    collectCachedFeatures emptyCache tileNames = [] := by
  have h : uniqueContentKeys emptyCache tileNames = [] := by
    simp [uniqueContentKeys, tileIndexReads, emptyCache, getCache, jsSetDedup,
      jsSetDedupGo]
  simp [collectCachedFeatures, h]

/-- On an empty cache every tile misses: the whole batch is fetched, nothing
is served from cache, and the fetched batch is stored under one content key
(TTL 300) referenced by every tile-index entry (TTL 3600). -/
theorem getGridLinesCore_emptyCache (tileNames : List String) (z : ℚ)
    (db : Except Unit (List Row)) (hne : tileNames ≠ []) :
    getGridLinesCore tileNames z emptyCache db =
      match db with
      | .error e => .error e
      | .ok rows =>
        .ok ⟨[], rows.map (rowToFeature (gridTypeOf z)), 0, tileNames.length, 1,
          ⟨createContentKey (rows.map (rowToFeature (gridTypeOf z))),
           Json.arr (rows.map (rowToFeature (gridTypeOf z))), 300⟩ ::
          (jsSetDedup (fun a b => a == b) tileNames).map (fun t =>
            ⟨createTileKey t,
             Json.str (createContentKey (rows.map (rowToFeature (gridTypeOf z)))),
             3600⟩)⟩ := by
  have hu : uncachedTileNames emptyCache tileNames =
      jsSetDedup (fun a b => a == b) tileNames := uncachedTileNames_emptyCache _
  have hlen : (uncachedTileNames emptyCache tileNames).length ≠ 0 := by
    rw [hu]
    simp only [ne_eq, List.length_eq_zero]
    rw [jsSetDedup_eq_nil_iff]
    exact hne
  rw [getGridLinesCore, if_neg hlen]
  cases db with
  | error e => rfl
  | ok rows =>
    rw [collectCachedFeatures_emptyCache, cachedTileCount_emptyCache, hu]

/-! ## Nonemptiness of the default tile set

The default viewport (`north 60.1819, south 60.1619, east 24.9514,
west 24.9314`, zoom 15) covers at least one tile.  This needs the
monotonicity of the Web-Mercator projection formulas. -/

theorem intRange_length (a b : ℤ) : (intRange a b).length = (b - a + 1).toNat := by
  simp [intRange]

theorem intRange_ne_nil {a b : ℤ} (h : a ≤ b) : intRange a b ≠ [] := by
  have h0 : 0 < (intRange a b).length := by rw [intRange_length]; omega
  exact List.length_pos.mp h0

theorem self_mem_intRange {a b : ℤ} (h : a ≤ b) : a ∈ intRange a b := by
  have h0 : (0 : ℕ) ∈ List.range (b - a + 1).toNat := by
    rw [List.mem_range]; omega
  have h1 := List.mem_map_of_mem (fun (i : ℕ) => a + (i : ℤ)) h0
  simp only [Nat.cast_zero, add_zero] at h1
  exact h1

theorem getTileNames_tiles_ne_nil (bounds : Bounds) (z : ℚ)
    (hx : (calculateOSMTile bounds.north bounds.west z).1 ≤
          (calculateOSMTile bounds.south bounds.east z).1)
    (hy : (calculateOSMTile bounds.north bounds.west z).2 ≤
          (calculateOSMTile bounds.south bounds.east z).2) :
    (getTileNames bounds z).tiles ≠ [] := by
  apply List.ne_nil_of_mem (a := tileName z
    (calculateOSMTile bounds.north bounds.west z).1
    (calculateOSMTile bounds.north bounds.west z).2)
  simp only [getTileNames, List.mem_flatMap, List.mem_map]
  exact ⟨_, self_mem_intRange hy, _, self_mem_intRange hx, rfl⟩

/-- The tile x-coordinate is monotone in longitude (and ignores latitude). -/
theorem calculateOSMTile_x_mono (lat1 lat2 : ℝ) {lng1 lng2 : ℝ}
    (h : lng1 ≤ lng2) (z : ℚ) :
    (calculateOSMTile lat1 lng1 z).1 ≤ (calculateOSMTile lat2 lng2 z).1 := by
  apply Int.floor_mono
  have hP : (0 : ℝ) < Real.rpow 2 (z : ℝ) := Real.rpow_pos_of_pos (by norm_num) _
  have h1 : (lng1 + 180) / 360 ≤ (lng2 + 180) / 360 := by linarith
  exact mul_le_mul_of_nonneg_right h1 hP.le

open Real in
/-- The tile y-coordinate is antitone in latitude on `(0°, 90°)` (and ignores
longitude): the Mercator ordinate `log (tan φ + 1/cos φ)` is monotone there. -/
theorem calculateOSMTile_y_mono {lat1 lat2 : ℝ} (lng1 lng2 : ℝ)
    (h1 : 0 < lat2) (h2 : lat2 ≤ lat1) (h3 : lat1 < 90) (z : ℚ) :
    (calculateOSMTile lat1 lng1 z).2 ≤ (calculateOSMTile lat2 lng2 z).2 := by
  have hπ : (0 : ℝ) < π := Real.pi_pos
  set φ1 := lat1 * π / 180 with hφ1def
  set φ2 := lat2 * π / 180 with hφ2def
  have hφ2pos : 0 < φ2 := by
    rw [hφ2def]; positivity
  have hφ12 : φ2 ≤ φ1 := by
    rw [hφ1def, hφ2def]
    gcongr
  have hφ1lt : φ1 < π / 2 := by
    rw [hφ1def]
    have h90 : lat1 * π < 90 * π := mul_lt_mul_of_pos_right h3 hπ
    linarith
  have hφ2lt : φ2 < π / 2 := lt_of_le_of_lt hφ12 hφ1lt
  have h_tan : Real.tan φ2 ≤ Real.tan φ1 := by
    rcases eq_or_lt_of_le hφ12 with heq | hlt
    · rw [heq]
    · exact (Real.tan_lt_tan_of_nonneg_of_lt_pi_div_two hφ2pos.le hφ1lt hlt).le
  have h_cos : Real.cos φ1 ≤ Real.cos φ2 :=
    Real.cos_le_cos_of_nonneg_of_le_pi hφ2pos.le (by linarith) hφ12
  have h_cos1pos : 0 < Real.cos φ1 :=
    Real.cos_pos_of_mem_Ioo ⟨by linarith, hφ1lt⟩
  have h_cos2pos : 0 < Real.cos φ2 := lt_of_lt_of_le h_cos1pos h_cos
  have h_sec : 1 / Real.cos φ2 ≤ 1 / Real.cos φ1 :=
    one_div_le_one_div_of_le h_cos1pos h_cos
  have h_pos2 : 0 < Real.tan φ2 + 1 / Real.cos φ2 :=
    add_pos (Real.tan_pos_of_pos_of_lt_pi_div_two hφ2pos hφ2lt)
      (one_div_pos.mpr h_cos2pos)
  have h_log : Real.log (Real.tan φ2 + 1 / Real.cos φ2) ≤
      Real.log (Real.tan φ1 + 1 / Real.cos φ1) :=
    Real.log_le_log h_pos2 (add_le_add h_tan h_sec)
  apply Int.floor_mono
  have hP : (0 : ℝ) < Real.rpow 2 (z : ℝ) := Real.rpow_pos_of_pos (by norm_num) _
  apply mul_le_mul_of_nonneg_right _ hP.le
  have hdiv : Real.log (Real.tan φ2 + 1 / Real.cos φ2) / π ≤
      Real.log (Real.tan φ1 + 1 / Real.cos φ1) / π :=
    (div_le_div_iff_of_pos_right hπ).mpr h_log
  linarith

/-- The default viewport at the default zoom 15 covers at least one tile, so
with an empty cache a default request always reaches the datastore. -/
theorem defaultTiles_ne_nil :
    (getTileNames (handlerBounds none none none none) 15).tiles ≠ [] := by
  have hb : handlerBounds none none none none =
      ⟨((60.1819 : ℚ) : ℝ), ((60.1619 : ℚ) : ℝ),
       ((24.9514 : ℚ) : ℝ), ((24.9314 : ℚ) : ℝ)⟩ := rfl
  rw [hb]
  apply getTileNames_tiles_ne_nil
  · apply calculateOSMTile_x_mono
    have : ((24.9314 : ℚ) : ℝ) ≤ ((24.9514 : ℚ) : ℝ) := by
      rw [Rat.cast_le]; norm_num
    exact this
  · apply calculateOSMTile_y_mono
    · show (0 : ℝ) < ((60.1619 : ℚ) : ℝ)
      rw [show (0 : ℝ) = ((0 : ℚ) : ℝ) by norm_num, Rat.cast_lt]
      norm_num
    · rw [Rat.cast_le]; norm_num
    · rw [show (90 : ℝ) = ((90 : ℚ) : ℝ) by norm_num, Rat.cast_lt]
      norm_num

/-! ## Claims about the throttle (C4, C5) -/

/-- The tracker state after `n` further `trackRequest` calls. -/
def admitN : ℕ → TrackerState → TrackerState
  | 0, s => s
  | n + 1, s => admitN n (trackRequest s).2

/-- The delay observed by the `(k+1)`-st of a burst of `trackRequest` calls
starting from state `s`, none of them released in between. -/
def nthAdmitDelay (k : ℕ) (s : TrackerState) : ℕ :=
  (trackRequest (admitN k s)).1.delay

theorem admitN_invariant (k : ℕ) (s : TrackerState)
    (h : ∀ i ∈ s.active, i ≤ s.lastId) :
    (admitN k s).active.card = s.active.card + k ∧
    (∀ i ∈ (admitN k s).active, i ≤ (admitN k s).lastId) ∧
    (admitN k s).lastId = s.lastId + k := by
  induction k generalizing s with
  | zero => exact ⟨rfl, h, rfl⟩
  | succ n ih =>
    have hfresh : s.lastId + 1 ∉ s.active := fun hmem => by
      have := h _ hmem; omega
    have hstep : ∀ i ∈ (trackRequest s).2.active, i ≤ (trackRequest s).2.lastId := by
      intro i hi
      simp only [trackRequest, Finset.mem_insert] at hi
      rcases hi with hi | hi
      · simp [trackRequest, hi]
      · have := h _ hi
        simp only [trackRequest]
        omega
    obtain ⟨hc, hw, hl⟩ := ih (trackRequest s).2 hstep
    have hcard : (trackRequest s).2.active.card = s.active.card + 1 := by
      simp only [trackRequest]
      exact Finset.card_insert_of_not_mem hfresh
    have hlast : (trackRequest s).2.lastId = s.lastId + 1 := rfl
    refine ⟨?_, hw, ?_⟩
    · show (admitN n (trackRequest s).2).active.card = s.active.card + (n + 1)
      omega
    · show (admitN n (trackRequest s).2).lastId = s.lastId + (n + 1)
      omega

theorem nthAdmitDelay_init (k : ℕ) :
    nthAdmitDelay k initTracker = min (100 * 2 ^ k) 10000 := by
  obtain ⟨hc, hw, _⟩ := admitN_invariant k initTracker (by simp [initTracker])
  have hfresh : (admitN k initTracker).lastId + 1 ∉ (admitN k initTracker).active :=
    fun hmem => by have := hw _ hmem; omega
  have hcard : (insert ((admitN k initTracker).lastId + 1)
      (admitN k initTracker).active).card = k + 1 := by
    rw [Finset.card_insert_of_not_mem hfresh, hc]
    simp [initTracker]
  simp only [nthAdmitDelay, trackRequest, hcard, Nat.add_sub_cancel]

/-- C4 counterexample: admit once from the fresh tracker, release it, and the
next admit observes delay 100 ms, not 0 — `trackRequest` always counts the
request being admitted itself, so its delay is never below `baseDelay`. -/
theorem c4_counterexample :
    (trackRequest (completeRequest (trackRequest initTracker).2
        (trackRequest initTracker).1.requestId)).1.delay = 100 ∧
    (100 : ℕ) ≠ 0 := by
  constructor
  · rfl
  · decide

/-- C4 (amended): a burst of admits from the fresh tracker observes
non-decreasing delays, every delay is capped at 10000 ms, and once the
in-flight set is empty again the next single admit observes delay 100 ms
(the base delay) — not 0. -/
theorem c4_amended :
    (∀ i j : ℕ, i ≤ j →
      nthAdmitDelay i initTracker ≤ nthAdmitDelay j initTracker) ∧
    (∀ k : ℕ, nthAdmitDelay k initTracker ≤ 10000) ∧
    (∀ s : TrackerState, s.active = ∅ → (trackRequest s).1.delay = 100) := by
  refine ⟨?_, ?_, ?_⟩
  · intro i j hij
    rw [nthAdmitDelay_init, nthAdmitDelay_init]
    exact min_le_min (Nat.mul_le_mul_left _ (Nat.pow_le_pow_right (by norm_num) hij))
      le_rfl
  · intro k
    rw [nthAdmitDelay_init]
    exact min_le_right _ _
  · intro s hs
    simp [trackRequest, hs]

/-- C4 witness: concrete instances of the amended claim, obtained from the
theorem itself. -/
theorem c4_amended_witness :
    ((0 : ℕ) ≤ 1 ∧ nthAdmitDelay 0 initTracker ≤ nthAdmitDelay 1 initTracker) ∧
    nthAdmitDelay 2 initTracker ≤ 10000 ∧
    (initTracker.active = ∅ ∧ (trackRequest initTracker).1.delay = 100) :=
  ⟨⟨by decide, c4_amended.1 0 1 (by decide)⟩,
   c4_amended.2.1 2,
   ⟨rfl, c4_amended.2.2 initTracker rfl⟩⟩

/-- C5: `trackRequest` computes `min(100 · 2^(activeCount − 1), 10000)` where
`activeCount` is the size of the in-flight set including the request being
admitted (one more than the previous size, ids being fresh). -/
theorem c5_delay_formula (s : TrackerState)
    (h : ∀ i ∈ s.active, i ≤ s.lastId) :
    (trackRequest s).1.delay = min (100 * 2 ^ ((s.active.card + 1) - 1)) 10000 ∧
    (trackRequest s).1.activeCount = s.active.card + 1 ∧
    (trackRequest s).2.active.card = s.active.card + 1 := by
  have hfresh : s.lastId + 1 ∉ s.active := fun hmem => by
    have := h _ hmem; omega
  have hcard : (insert (s.lastId + 1) s.active).card = s.active.card + 1 :=
    Finset.card_insert_of_not_mem hfresh
  exact ⟨by simp only [trackRequest, hcard], by simp only [trackRequest, hcard],
    by simp only [trackRequest, hcard]⟩

/-- C5 witness: the formula evaluated at the fresh tracker. -/
theorem c5_delay_formula_witness :
    (∀ i ∈ initTracker.active, i ≤ initTracker.lastId) ∧
    (trackRequest initTracker).1.delay =
      min (100 * 2 ^ ((initTracker.active.card + 1) - 1)) 10000 ∧
    (trackRequest initTracker).1.activeCount = initTracker.active.card + 1 ∧
    (trackRequest initTracker).2.active.card = initTracker.active.card + 1 :=
  ⟨by simp [initTracker], c5_delay_formula initTracker (by simp [initTracker])⟩

/-! ## Claim C1: index hit with missing content -/

/-- A cache state in which the single tile's index entry holds a content
fingerprint whose payload is absent (expired or never stored). -/
def c1Cache : Cache := fun k =>
  if k = "tile:15/18653/9484" then some (.str "content:1a2b3c") else none

/-- C1 (refuted; the spec's §9 design note itself flags this source behaviour
as a defect): when a tile's tile-index entry yields a fingerprint whose
payload is absent from the content cache, `getGridLines` does *not* treat
the tile as a miss — `uncachedTiles` is empty, so it takes the
everything-cached early return with `filter(Boolean)` having dropped the
`null` payload: the datastore is never queried (0 queries), nothing is
re-fetched, and the tile's features are silently omitted (empty `cached`
and `queried` while the tile counts as cached in the stats). -/
theorem c1_index_hit_content_missing_drops_features :
    getGridLinesCore ["15/18653/9484"] 15 c1Cache
        (.ok [⟨"line A", "#ff0000", Json.null⟩]) =
      .ok ⟨[], [], 1, 1, 0, []⟩ := by
  rfl

/-! ## Claim C9: batch store, one fingerprint, TTLs 300/3600 -/

/-- C9: storing a fetched miss batch computes exactly one fingerprint for the
whole batch, persists fingerprint → features with expiration 300 s, then
persists each miss tile → that same fingerprint with expiration 3600 s
(and 3600 > 300). -/
theorem c9_store_one_fingerprint_ttls (tileNames : List String) (z : ℚ)
    (cache : Cache) (rows : List Row)
    (h : uncachedTileNames cache tileNames ≠ []) :
    ∃ r, getGridLinesCore tileNames z cache (.ok rows) = .ok r ∧
      r.writes =
        ⟨createContentKey (rows.map (rowToFeature (gridTypeOf z))),
         Json.arr (rows.map (rowToFeature (gridTypeOf z))), 300⟩ ::
        (uncachedTileNames cache tileNames).map (fun t =>
          ⟨createTileKey t,
           Json.str (createContentKey (rows.map (rowToFeature (gridTypeOf z)))),
           3600⟩) ∧
      (∀ w ∈ r.writes.tail, w.ttl = 3600) ∧
      (r.writes.head?.map CacheWrite.ttl = some 300) ∧
      (300 : ℕ) < 3600 := by
  have hlen : (uncachedTileNames cache tileNames).length ≠ 0 := by
    simpa [List.length_eq_zero] using h
  have hcore : getGridLinesCore tileNames z cache (.ok rows) =
      .ok ⟨collectCachedFeatures cache tileNames,
           rows.map (rowToFeature (gridTypeOf z)),
           cachedTileCount cache tileNames, tileNames.length, 1,
           ⟨createContentKey (rows.map (rowToFeature (gridTypeOf z))),
            Json.arr (rows.map (rowToFeature (gridTypeOf z))), 300⟩ ::
           (uncachedTileNames cache tileNames).map (fun t =>
             ⟨createTileKey t,
              Json.str (createContentKey (rows.map (rowToFeature (gridTypeOf z)))),
              3600⟩)⟩ := by
    simp only [getGridLinesCore]
    rw [if_neg hlen]
  refine ⟨_, hcore, rfl, ?_, rfl, by norm_num⟩
  intro w hw
  simp only [List.tail_cons, List.mem_map] at hw
  obtain ⟨t, _, ht⟩ := hw
  rw [← ht]

/-- C9 witness: one miss tile with an empty cache and an empty fetched row
list. -/
theorem c9_store_one_fingerprint_ttls_witness :
    (uncachedTileNames emptyCache ["15/18653/9484"] ≠ []) ∧
    ∃ r, getGridLinesCore ["15/18653/9484"] 15 emptyCache (.ok []) = .ok r ∧
      r.writes =
        ⟨createContentKey (([] : List Row).map (rowToFeature (gridTypeOf 15))),
         Json.arr (([] : List Row).map (rowToFeature (gridTypeOf 15))), 300⟩ ::
        (uncachedTileNames emptyCache ["15/18653/9484"]).map (fun t =>
          ⟨createTileKey t,
           Json.str (createContentKey (([] : List Row).map
             (rowToFeature (gridTypeOf 15)))),
           3600⟩) ∧
      (∀ w ∈ r.writes.tail, w.ttl = 3600) ∧
      (r.writes.head?.map CacheWrite.ttl = some 300) ∧
      (300 : ℕ) < 3600 :=
  ⟨by decide, c9_store_one_fingerprint_ttls ["15/18653/9484"] 15 emptyCache []
    (by decide)⟩

/-! ## Claims C6 and C7: the content fingerprint

`createContentKey(features)` passes `Object.keys(features).sort()` — the
array's own index strings — as the `JSON.stringify` replacer.  No feature
object has a numeric-string key (`type`, `properties`, `geometry` only), so
every feature serializes as an empty object and the canonical string, hence
the fingerprint, depends only on the number of features. -/

/-- A GeoJSON feature as this program builds them (source lines 261–276). -/
def IsFeature (j : Json) : Prop := ∃ g r, j = rowToFeature g r

theorem not_mem_indexKeys {k : String} (n : ℕ) (hk : ∀ m : ℕ, decRepr m ≠ k) :
    k ∉ jsSortStrings ((List.range n).map decRepr) := by
  rw [mem_jsSortStrings]
  intro hmem
  obtain ⟨m, _, hm⟩ := List.mem_map.mp hmem
  exact hk m hm

/-- With a whitelist containing none of the three feature keys, a feature
object serializes as `{}`. -/
theorem stringify_feature_empty (allowed : List String)
    (h1 : "type" ∉ allowed) (h2 : "properties" ∉ allowed)
    (h3 : "geometry" ∉ allowed) (g : String) (r : Row) :
    jsonStringifyR allowed (rowToFeature g r) = "\x7b\x7d" := by
  simp only [rowToFeature, jsonStringifyR, stringifyProps, h1, h2, h3,
    decide_eq_false, if_false, decide_False, Bool.false_eq_true]
  rfl

/-- With such a whitelist, the canonical form of a feature list is
`[{},…,{}]`: one empty object per feature, every field dropped. -/
theorem stringifyElems_features (allowed : List String)
    (h1 : "type" ∉ allowed) (h2 : "properties" ∉ allowed)
    (h3 : "geometry" ∉ allowed) :
    ∀ l : List Json, (∀ j ∈ l, IsFeature j) →
      stringifyElems allowed l = l.map (fun _ => "\x7b\x7d") := by
  intro l
  induction l with
  | nil => intro _; rfl
  | cons x xs ih =>
    intro hl
    obtain ⟨g, r, hx⟩ := hl x (by simp)
    rw [stringifyElems, hx, stringify_feature_empty allowed h1 h2 h3 g r,
      List.map_cons, ih (fun j hj => hl j (List.mem_cons_of_mem _ hj))]

/-- The canonical serialization `JSON.stringify(l, Object.keys(l).sort())` of
a feature list is `[{},…,{}]` — it depends only on the list's length. -/
theorem canonical_features (l : List Json) (hl : ∀ j ∈ l, IsFeature j) :
    jsonStringifyR (jsSortStrings ((List.range l.length).map decRepr))
        (Json.arr l) =
      "[" ++ String.intercalate "," (l.map (fun _ => "\x7b\x7d")) ++ "]" := by
  rw [jsonStringifyR]
  rw [stringifyElems_features _ (not_mem_indexKeys _ decRepr_ne_type)
    (not_mem_indexKeys _ decRepr_ne_properties)
    (not_mem_indexKeys _ decRepr_ne_geometry) l hl]

/-- Any two feature lists of the same length share a fingerprint. -/
theorem createContentKey_length_only (l1 l2 : List Json)
    (h1 : ∀ j ∈ l1, IsFeature j) (h2 : ∀ j ∈ l2, IsFeature j)
    (hlen : l1.length = l2.length) :
    createContentKey l1 = createContentKey l2 := by
  rw [createContentKey, createContentKey, canonical_features l1 h1,
    canonical_features l2 h2, List.map_const', List.map_const', hlen]

/-- C6: two feature lists holding the same features, possibly in a different
order (set- and attribute-equal, i.e. permutations of each other), receive
the same content fingerprint — in particular two disjoint tile batches whose
fetched feature lists are set-equal resolve to the same fingerprint. -/
theorem c6_fingerprint_perm_invariant (l1 l2 : List Json)
    (h1 : ∀ j ∈ l1, IsFeature j) (hp : l1.Perm l2) :
    createContentKey l1 = createContentKey l2 :=
  createContentKey_length_only l1 l2 h1
    (fun j hj => h1 j (hp.mem_iff.mpr hj)) hp.length_eq

/-- C6 witness: a two-feature list and its reversal. -/
theorem c6_fingerprint_perm_invariant_witness :
    (∀ j ∈ [rowToFeature "100m" ⟨"a", "red", Json.null⟩,
            rowToFeature "100m" ⟨"b", "blue", Json.null⟩], IsFeature j) ∧
    List.Perm
      [rowToFeature "100m" ⟨"a", "red", Json.null⟩,
       rowToFeature "100m" ⟨"b", "blue", Json.null⟩]
      [rowToFeature "100m" ⟨"b", "blue", Json.null⟩,
       rowToFeature "100m" ⟨"a", "red", Json.null⟩] ∧
    createContentKey
        [rowToFeature "100m" ⟨"a", "red", Json.null⟩,
         rowToFeature "100m" ⟨"b", "blue", Json.null⟩] =
      createContentKey
        [rowToFeature "100m" ⟨"b", "blue", Json.null⟩,
         rowToFeature "100m" ⟨"a", "red", Json.null⟩] := by
  have hf : ∀ j ∈ [rowToFeature "100m" ⟨"a", "red", Json.null⟩,
      rowToFeature "100m" ⟨"b", "blue", Json.null⟩], IsFeature j := by
    intro j hj
    rcases List.mem_cons.mp hj with h | h
    · exact ⟨"100m", _, h⟩
    · rcases List.mem_cons.mp h with h' | h'
      · exact ⟨"100m", _, h'⟩
      · cases h'
  have hperm : List.Perm
      [rowToFeature "100m" ⟨"a", "red", Json.null⟩,
       rowToFeature "100m" ⟨"b", "blue", Json.null⟩]
      [rowToFeature "100m" ⟨"b", "blue", Json.null⟩,
       rowToFeature "100m" ⟨"a", "red", Json.null⟩] := List.Perm.swap _ _ _
  exact ⟨hf, hperm, c6_fingerprint_perm_invariant _ _ hf hperm⟩

/-- C7: the fingerprint of a feature list depends only on its length — the
array replacer `Object.keys(data).sort()` whitelists only the array's index
strings, no feature key is such a string, so every feature serializes with
none of its fields (`{}`) and the canonical string is `[{},…,{}]`. -/
theorem c7_fingerprint_ignores_content (l1 l2 : List Json)
    (h1 : ∀ j ∈ l1, IsFeature j) (h2 : ∀ j ∈ l2, IsFeature j)
    (hlen : l1.length = l2.length) :
    createContentKey l1 = createContentKey l2 ∧
    jsonStringifyR (jsSortStrings ((List.range l1.length).map decRepr))
        (Json.arr l1) =
      "[" ++ String.intercalate "," (l1.map (fun _ => "\x7b\x7d")) ++ "]" :=
  ⟨createContentKey_length_only l1 l2 h1 h2 hlen, canonical_features l1 h1⟩

/-- C7 witness: two single-feature lists with entirely different contents. -/
theorem c7_fingerprint_ignores_content_witness :
    (∀ j ∈ [rowToFeature "50m" ⟨"north 60.17", "#ff0000", Json.null⟩],
      IsFeature j) ∧
    (∀ j ∈ [rowToFeature "500m" ⟨"east 24.94", "#0000ff",
        Json.str "other"⟩], IsFeature j) ∧
    createContentKey [rowToFeature "50m" ⟨"north 60.17", "#ff0000", Json.null⟩] =
      createContentKey [rowToFeature "500m" ⟨"east 24.94", "#0000ff",
        Json.str "other"⟩] := by
  have hf1 : ∀ j ∈ [rowToFeature "50m" ⟨"north 60.17", "#ff0000", Json.null⟩],
      IsFeature j := by
    intro j hj
    rcases List.mem_cons.mp hj with h | h
    · exact ⟨"50m", _, h⟩
    · cases h
  have hf2 : ∀ j ∈ [rowToFeature "500m" ⟨"east 24.94", "#0000ff",
      Json.str "other"⟩], IsFeature j := by
    intro j hj
    rcases List.mem_cons.mp hj with h | h
    · exact ⟨"500m", _, h⟩
    · cases h
  exact ⟨hf1, hf2,
    (c7_fingerprint_ignores_content _ _ hf1 hf2 rfl).1⟩

/-! ## Claims about the `/api/grid` route (C2, C3, C8, C10) -/

theorem getGridLines_default_emptyCache (db : Except Unit (List Row)) :
    getGridLines (handlerBounds none none none none) (jsOrDefault none 15)
        emptyCache db =
      getGridLinesCore
        (getTileNames (handlerBounds none none none none) 15).tiles
        15 emptyCache db := by
  show getGridLines _ 15 emptyCache db = _
  rw [getGridLines, if_neg (by norm_num)]

/-- C2 (amended): `trackRequest` is invoked if and only if the request's
datastore query returned at least one feature (`queried.length > 0`) — not
"iff at least one tile missed": a miss whose fetch returns zero features
also bypasses the throttle.  A request whose tiles are all cache hits does
leave the in-flight set unchanged and reports delay 0. -/
theorem c2_throttle_iff_queried (qn qs qe qw qz : Option ℚ) (cache : Cache)
    (db : Except Unit (List Row)) (tr : TrackerState) :
    ((apiGridHandler qn qs qe qw qz cache db tr).throttleAdmits = 1 ↔
      ∃ r, getGridLines (handlerBounds qn qs qe qw) (jsOrDefault qz 15) cache db =
          .ok r ∧ 0 < r.queried.length) ∧
    (∀ r, getGridLines (handlerBounds qn qs qe qw) (jsOrDefault qz 15) cache db =
        .ok r → r.queried.length = 0 →
      (apiGridHandler qn qs qe qw qz cache db tr).tracker = tr ∧
      (apiGridHandler qn qs qe qw qz cache db tr).outcome =
        .ok ⟨r.cached, 0, 0, r.cached.length, 0, jsOrDefault qz 15,
          r.statsCached, r.statsTotal⟩) := by
  simp only [apiGridHandler]
  cases hg : getGridLines (handlerBounds qn qs qe qw) (jsOrDefault qz 15) cache db with
  | error e =>
    dsimp only
    refine ⟨⟨fun h => by simp at h, ?_⟩, ?_⟩
    · rintro ⟨r, hr, -⟩
      exact Except.noConfusion hr
    · intro r hr
      exact Except.noConfusion hr
  | ok r =>
    dsimp only
    by_cases hq : 0 < r.queried.length
    · rw [if_pos hq]
      refine ⟨⟨fun _ => ⟨r, rfl, hq⟩, fun _ => rfl⟩, ?_⟩
      intro r' hr' h0
      injection hr' with h
      subst h
      omega
    · rw [if_neg hq]
      refine ⟨⟨fun h => by simp at h, ?_⟩, ?_⟩
      · rintro ⟨r', hr', hq'⟩
        injection hr' with h
        subst h
        omega
      · intro r' hr' h0
        injection hr' with h
        subst h
        have hnil : r.queried = [] := List.length_eq_zero.mp h0
        refine ⟨rfl, ?_⟩
        rw [hnil, List.append_nil]
        rfl

/-- C2 witness: a fully short-circuited request (zoom 8) leaves the tracker
unchanged and reports delay 0. -/
theorem c2_throttle_iff_queried_witness :
    (apiGridHandler none none none none (some 8) emptyCache (.ok [])
        initTracker).tracker = initTracker ∧
    (apiGridHandler none none none none (some 8) emptyCache (.ok [])
        initTracker).outcome =
      .ok ⟨[], 0, 0, 0, 0, jsOrDefault (some 8) 15, 0, 0⟩ := by
  have hg : getGridLines (handlerBounds none none none none)
      (jsOrDefault (some 8) 15) emptyCache (.ok []) = .ok ⟨[], [], 0, 0, 0, []⟩ := by
    rw [getGridLines, if_pos]
    show jsOrDefault (some 8) 15 ≤ 10
    norm_num [jsOrDefault]
  exact (c2_throttle_iff_queried none none none none (some 8) emptyCache (.ok [])
    initTracker).2 ⟨[], [], 0, 0, 0, []⟩ hg rfl

/-- C2 counterexample: with the default viewport, an empty cache and a
datastore reply with zero rows, every tile misses (the datastore is queried
once, no tile was cached) yet `trackRequest` is never invoked — refuting
"admit is invoked if at least one tile misses". -/
theorem c2_counterexample :
    (apiGridHandler none none none none none emptyCache (.ok [])
        initTracker).dbQueries = 1 ∧
    (apiGridHandler none none none none none emptyCache (.ok [])
        initTracker).throttleAdmits = 0 ∧
    ∃ resp, (apiGridHandler none none none none none emptyCache (.ok [])
        initTracker).outcome = .ok resp ∧
      resp.tilesCached = 0 ∧ 0 < resp.tilesTotal := by
  have hg : getGridLines (handlerBounds none none none none) (jsOrDefault none 15)
      emptyCache (.ok []) =
      .ok ⟨[], [], 0,
        (getTileNames (handlerBounds none none none none) 15).tiles.length, 1,
        ⟨createContentKey [], Json.arr [], 300⟩ ::
        (jsSetDedup (fun a b => a == b)
          (getTileNames (handlerBounds none none none none) 15).tiles).map (fun t =>
            ⟨createTileKey t, Json.str (createContentKey []), 3600⟩)⟩ := by
    rw [getGridLines_default_emptyCache,
      getGridLinesCore_emptyCache _ _ _ defaultTiles_ne_nil]
    rfl
  simp only [apiGridHandler, hg]
  rw [if_neg (by simp)]
  exact ⟨rfl, rfl, _, rfl, rfl, List.length_pos.mpr defaultTiles_ne_nil⟩

/-- C3 (the code contradicts it): on a datastore failure during the miss
path, the in-flight set is indeed left unchanged (nothing had been admitted:
admission happens only after a successful fetch) and nothing is cached, but
the handler does *not* return an empty feature collection with an error
status — the `catch` block's `if (requestId)` references a name that is
block-scoped to the `try`, so a `ReferenceError` escapes instead of the
intended `res.status(500).json(...)`. -/
theorem c3_failure_crashes (tr : TrackerState) :
    apiGridHandler none none none none none emptyCache (.error ()) tr =
      ⟨.crashed, tr, [], 1, 0⟩ := by
  have hg : getGridLines (handlerBounds none none none none) (jsOrDefault none 15)
      emptyCache (.error ()) = .error () := by
    rw [getGridLines_default_emptyCache,
      getGridLinesCore_emptyCache _ _ _ defaultTiles_ne_nil]
  simp only [apiGridHandler, hg]

/-- Lookup of a field of a JSON object, as reading a property of the parsed
response does. -/
def jsObjGet (j : Json) (k : String) : Option Json :=
  match j with
  | .obj fs => (fs.find? (fun f => f.1 == k)).map (fun f => f.2)
  | _ => none

/-- The `properties.dashArray` of a feature. -/
def dashArrayOf (feature : Json) : Option Json :=
  (jsObjGet feature "properties").bind (fun p => jsObjGet p "dashArray")

/-- C8 counterexample: at zoom 15 the features carry
`dashArray: "15, 10"` (with a space, source line 272), not the `"15,10"`
the claim states. -/
theorem c8_counterexample :
    dashArrayOf (rowToFeature (gridTypeOf 15) ⟨"lat 60.17", "#3388ff", Json.null⟩)
      = some (.str "15, 10") ∧
    "15, 10" ≠ "15,10" := by
  have hgt : gridTypeOf 15 = "100m" := by rw [gridTypeOf]; norm_num
  constructor
  · rw [hgt]
    rfl
  · decide

/-- C8 (amended: the dash pattern string is `"15, 10"`, with a space):
(1) every request with zoom ≤ 10 yields the empty grid result without
touching cache, throttle or datastore; (2) zoom 15 selects the medium
`"100m"` tier, whose features carry dash `"15, 10"`, weight 2, opacity 0.7;
(3) the default-viewport zoom-15 request on an empty cache performs exactly
one datastore fetch, with `cacheInfo.queried > 0` and
`cacheInfo.cached == 0`. -/
theorem c8_amended :
    (∀ (b : Bounds) (z : ℚ) (cache : Cache) (db : Except Unit (List Row)),
      z ≤ 10 → getGridLines b z cache db = .ok ⟨[], [], 0, 0, 0, []⟩) ∧
    gridTypeOf 15 = "100m" ∧
    (∀ row : Row, rowToFeature "100m" row =
      Json.obj [("type", .str "Feature"),
        ("properties", .obj [("name", .str row.name), ("color", .str row.color),
          ("weight", .num 2), ("opacity", .num (7 / 10)),
          ("dashArray", .str "15, 10")]),
        ("geometry", row.geometry)]) ∧
    (∀ (rows : List Row) (tr : TrackerState), rows ≠ [] →
      (apiGridHandler none none none none none emptyCache (.ok rows)
        tr).dbQueries = 1 ∧
      ∃ resp, (apiGridHandler none none none none none emptyCache (.ok rows)
          tr).outcome = .ok resp ∧
        resp.features = rows.map (rowToFeature "100m") ∧
        resp.infoQueried = rows.length ∧ 0 < resp.infoQueried ∧
        resp.infoCached = 0 ∧ resp.tilesCached = 0 ∧ resp.infoZoom = 15) := by
  have hgt : gridTypeOf 15 = "100m" := by rw [gridTypeOf]; norm_num
  refine ⟨?_, hgt, ?_, ?_⟩
  · intro b z cache db hz
    rw [getGridLines, if_pos hz]
  · intro row
    rfl
  · intro rows tr hrows
    have hg : getGridLines (handlerBounds none none none none) (jsOrDefault none 15)
        emptyCache (.ok rows) =
        .ok ⟨[], rows.map (rowToFeature (gridTypeOf 15)), 0,
          (getTileNames (handlerBounds none none none none) 15).tiles.length, 1,
          ⟨createContentKey (rows.map (rowToFeature (gridTypeOf 15))),
           Json.arr (rows.map (rowToFeature (gridTypeOf 15))), 300⟩ ::
          (jsSetDedup (fun a b => a == b)
            (getTileNames (handlerBounds none none none none) 15).tiles).map
              (fun t => ⟨createTileKey t,
                Json.str (createContentKey (rows.map (rowToFeature (gridTypeOf 15)))),
                3600⟩)⟩ := by
      rw [getGridLines_default_emptyCache,
        getGridLinesCore_emptyCache _ _ _ defaultTiles_ne_nil]
    have hq : 0 < (rows.map (rowToFeature (gridTypeOf 15))).length := by
      rw [List.length_map]
      exact List.length_pos.mpr hrows
    simp only [apiGridHandler, hg]
    rw [if_pos hq]
    refine ⟨rfl, ⟨([] : List Json) ++ rows.map (rowToFeature (gridTypeOf 15)),
      (trackRequest tr).1.delay, (trackRequest tr).1.activeCount,
      ([] : List Json).length, (rows.map (rowToFeature (gridTypeOf 15))).length,
      jsOrDefault none 15, 0,
      (getTileNames (handlerBounds none none none none) 15).tiles.length⟩,
      rfl, ?_, ?_, ?_, rfl, rfl, rfl⟩
    · show ([] : List Json) ++ rows.map (rowToFeature (gridTypeOf 15)) =
        rows.map (rowToFeature "100m")
      rw [List.nil_append, hgt]
    · show (rows.map (rowToFeature (gridTypeOf 15))).length = rows.length
      rw [List.length_map]
    · show 0 < (rows.map (rowToFeature (gridTypeOf 15))).length
      exact hq

/-- C8 witness: concrete instances of the amended claim. -/
theorem c8_amended_witness :
    ((8 : ℚ) ≤ 10 ∧
      getGridLines ⟨1, 0, 1, 0⟩ 8 emptyCache (.ok []) = .ok ⟨[], [], 0, 0, 0, []⟩) ∧
    (([⟨"a", "#fff", Json.null⟩] : List Row) ≠ [] ∧
      (apiGridHandler none none none none none emptyCache
        (.ok [⟨"a", "#fff", Json.null⟩]) initTracker).dbQueries = 1 ∧
      ∃ resp : GridResponse, (apiGridHandler none none none none none emptyCache
          (.ok [⟨"a", "#fff", Json.null⟩]) initTracker).outcome = .ok resp ∧
        resp.features = ([⟨"a", "#fff", Json.null⟩] : List Row).map
          (rowToFeature "100m") ∧
        resp.infoQueried = ([⟨"a", "#fff", Json.null⟩] : List Row).length ∧
        0 < resp.infoQueried ∧ resp.infoCached = 0 ∧ resp.tilesCached = 0 ∧
        resp.infoZoom = 15) :=
  ⟨⟨by norm_num, c8_amended.1 ⟨1, 0, 1, 0⟩ 8 emptyCache (.ok []) (by norm_num)⟩,
   ⟨by simp, c8_amended.2.2.2 [⟨"a", "#fff", Json.null⟩] initTracker (by simp)⟩⟩

/-- C10: a query parameter that parses to `0` is indistinguishable from an
absent one — `parseFloat(...) || default` replaces every falsy parsed value
with the fixed default — so `zoom=0` (or `west=0`) is served exactly as a
request without that parameter: with the default zoom 15 (which is not
short-circuited), rather than with the empty grid that every real zoom ≤ 10
(in particular zoom 0) produces. -/
theorem c10_zero_param_is_default (qn qs qe qw qz : Option ℚ) (cache : Cache)
    (db : Except Unit (List Row)) (tr : TrackerState) :
    apiGridHandler qn qs qe qw (some 0) cache db tr =
      apiGridHandler qn qs qe qw none cache db tr ∧
    apiGridHandler qn qs qe (some 0) qz cache db tr =
      apiGridHandler qn qs qe none qz cache db tr ∧
    jsOrDefault (some 0) 15 = 15 ∧
    ¬ ((15 : ℚ) ≤ 10) ∧
    (∀ (b : Bounds) (cache' : Cache) (db' : Except Unit (List Row)),
      getGridLines b 0 cache' db' = .ok ⟨[], [], 0, 0, 0, []⟩) := by
  have hz : jsOrDefault (some 0) 15 = jsOrDefault none 15 := by
    simp [jsOrDefault]
  have hw : handlerBounds qn qs qe (some 0) = handlerBounds qn qs qe none := by
    rw [handlerBounds, handlerBounds]
    simp [jsOrDefault]
  refine ⟨?_, ?_, by simp [jsOrDefault], by norm_num, ?_⟩
  · simp only [apiGridHandler, hz]
  · simp only [apiGridHandler, hw]
  · intro b cache' db'
    rw [getGridLines, if_pos (by norm_num)]

end QuickLeaflet
